import Mathlib

/-!
Verification of the gitar request/normalization engine against its design
specification.  The Rust sources under scrutiny are `src/remote/query.rs`
(the `paged!`/`send!` macros and `num_pages`), `src/gitlab.rs` and
`src/gitlab/project.rs` (the GitLab backend), `src/cmds/common.rs` (the
CLI-facing callers) and `src/error.rs`.  Collaborating pieces whose source
is not part of the reviewed tree (the Paginator, the Response/page-header
model, `sort_filter_by_date`, `json_load_page`, the display sink and
`ListBodyArgs`) are modelled from the specification; each such definition
says so in its doc comment.
-/

namespace Gitar

/-- JSON values in the style of serde_json::Value: null, booleans, integer
numbers, strings, arrays and objects. -/
inductive Json where
  | null : Json
  | bool (b : Bool) : Json
  | num (n : Int) : Json
  | str (s : String) : Json
  | arr (xs : List Json) : Json
  | obj (fields : List (String × Json)) : Json

/-- Object indexing `value[key]`: serde_json yields Null for a missing key
or a non-object receiver. -/
def Json.get (j : Json) (key : String) : Json :=
  match j with
  | .obj fields =>
    match fields.find? (fun p => p.1 == key) with
    | some p => p.2
    | none => .null
  | _ => .null

/-- Array indexing `value[i]`: Null when out of bounds or not an array. -/
def Json.idx (j : Json) (i : Nat) : Json :=
  match j with
  | .arr xs => xs.getD i .null
  | _ => .null

/-- serde_json `as_i64`. -/
def Json.asI64 : Json → Option Int
  | .num n => some n
  | _ => none

/-- serde_json `as_str`. -/
def Json.asStr : Json → Option String
  | .str s => some s
  | _ => none

/-- serde_json `as_array`. -/
def Json.asArray : Json → Option (List Json)
  | .arr xs => some xs
  | _ => none

mutual

/-- Rendering of a JSON value back to text, used where the Rust code
interpolates a response body into an error message. -/
def Json.render : Json → String
  | Json.null => "null"
  | Json.bool b => cond b "true" "false"
  | Json.num n => toString n
  | Json.str s => "\"" ++ s ++ "\""
  | Json.arr xs => "[" ++ Json.renderArr xs ++ "]"
  | Json.obj fs => "\x7b" ++ Json.renderObjFields fs ++ "\x7d"

/-- Comma-separated rendering of array elements. -/
def Json.renderArr : List Json → String
  | [] => ""
  | [x] => Json.render x
  | x :: xs => Json.render x ++ "," ++ Json.renderArr xs

/-- Comma-separated rendering of object fields. -/
def Json.renderObjFields : List (String × Json) → String
  | [] => ""
  | [(k, v)] => "\"" ++ k ++ "\":" ++ Json.render v
  | (k, v) :: fs => "\"" ++ k ++ "\":" ++ Json.render v ++ "," ++ Json.renderObjFields fs

end

/-- The error enumeration of `src/error.rs` (GRError).  `GenericError`
stands for the untyped anyhow errors produced by `error::gen`. -/
inductive GRError where
  | PreconditionNotMet (msg : String)
  | GitRemoteUrlNotFound (msg : String)
  | DomainOrRepoExpected (msg : String)
  | TimeConversionError (msg : String)
  | ConfigurationError (msg : String)
  | OperationNotSupported (msg : String)
  | RateLimitExceeded
  | ExponentialBackoffMaxRetriesReached (msg : String)
  | ApplicationError (msg : String)
  | RemoteUnexpectedResponseContract (msg : String)
  | RemoteServerError (msg : String)
  | HttpTransportError (msg : String)
  | GenericError (msg : String)
deriving Repr, DecidableEq

/-- Outcome of running a piece of Rust code: a value, a returned error, or
a panic (Rust `unwrap` on None / parse failure aborts the process rather
than returning an error). -/
inductive Outcome (α : Type) where
  | ok (val : α) : Outcome α
  | err (e : GRError) : Outcome α
  | panicked (msg : String) : Outcome α
deriving Repr, DecidableEq

/-- The panic message of Option::unwrap on a None value. -/
def unwrapMsg : String := "called Option::unwrap on a None value"

/-- HTTP methods supported by the engine. -/
inductive Method where
  | GET
  | HEAD
  | POST
  | PUT
deriving Repr, DecidableEq

/-- Modelled from the spec: page metadata derived from link-relation
headers; the page numbers of the next and last relations when present
(io.rs / http.rs are not part of the reviewed sources). -/
structure PageInfo where
  number : Nat
deriving Repr, DecidableEq

/-- Modelled from the spec: the optional page-header structure of a
Response; absence of page headers is a valid terminal state. -/
structure PageHeader where
  next : Option PageInfo
  last : Option PageInfo
deriving Repr, DecidableEq

/-- Modelled from the spec: an inbound Response with numeric status, body
and derived page metadata.  The body is modelled as already-parsed JSON
(`json_loads` is therefore total in this embedding). -/
structure Response where
  status : Nat
  body : Json
  pageHeaders : Option PageHeader

/-- Modelled from the spec: `Response::is_ok(&method)` — a completed call
succeeds when its status is the expected success code for the method. -/
def Response.isOk (r : Response) (m : Method) : Bool :=
  match m with
  | .GET => r.status == 200
  | .HEAD => r.status == 200
  | .POST => r.status == 201 || r.status == 200
  | .PUT => r.status == 200

/-- Modelled from the spec: one step of a scripted Runner (the test-double
Runner replays a pre-scripted ordered list of Responses); a step is either
a completed Response or a transport failure. -/
inductive RunnerStep where
  | resp (r : Response)
  | transportError (msg : String)

/-- A scripted Runner: responses are consumed in order, one per call. -/
abbrev Runner := List RunnerStep

/-- Modelled from the spec: ListBodyArgs — optional starting page, optional
maximum page count, optional throttle delay, the flush flag forwarded by
the caller, and the optional caller-supplied time window consumed by the
date-based sort/filter pass.  Timestamps are modelled as naturals. -/
structure ListBodyArgs where
  page : Option Nat
  maxPages : Option Nat
  throttleTime : Option Nat
  flush : Bool
  createdAfter : Option Nat
  createdBefore : Option Nat
deriving Repr, DecidableEq

/-- The flush flag of the optional list arguments (false when absent). -/
def flushOf : Option ListBodyArgs → Bool
  | none => false
  | some la => la.flush

/-- `build_list_request` (src/remote/query.rs): when a starting page is
set the request records `list_args.max_pages.unwrap()` as its explicit
page range — an unwrap that panics when max_pages is None. -/
def buildMaxPages : Option ListBodyArgs → Outcome (Option Nat)
  | none => .ok none
  | some la =>
    match la.page with
    | none => .ok none
    | some _ =>
      match la.maxPages with
      | some n => .ok (some n)
      | none => .panicked unwrapMsg

/-- Modelled from the spec: the Paginator's link-relation strategy — issue
the first call, then keep issuing calls while the previous response
advertises a next relation; terminate immediately on a failed call. -/
def paginateLink : Runner → List (Except GRError Response)
  | [] => []
  | .transportError m :: _ => [.error (GRError.HttpTransportError m)]
  | .resp r :: rest =>
    .ok r ::
      (match r.pageHeaders with
       | some ph =>
         match ph.next with
         | some _ => paginateLink rest
         | none => []
       | none => [])

/-- Modelled from the spec: the Paginator's explicit-range strategy —
iterate exactly the requested number of pages regardless of link headers;
terminate immediately on a failed call. -/
def paginateRange : Runner → Nat → List (Except GRError Response)
  | _, 0 => []
  | [], _ + 1 => []
  | .transportError m :: _, _ + 1 => [.error (GRError.HttpTransportError m)]
  | .resp r :: rest, n + 1 => .ok r :: paginateRange rest n

/-- Modelled from the spec: the Paginator — explicit-range strategy when
the request carries an explicit page range, link-relation strategy
otherwise. -/
def paginate (script : Runner) : Option Nat → List (Except GRError Response)
  | some n => paginateRange script n
  | none => paginateLink script

/-- `query_error` (src/remote/query.rs): a non-OK status is reported as a
RemoteServerError carrying url, status and body. -/
def queryError (url : String) (r : Response) : GRError :=
  .RemoteServerError
    ("Failed to submit request to URL: " ++ url ++ " with status code: " ++
      toString r.status ++ " and body: " ++ r.body.render)

/-- The per-element fold of the `paged!` macro: each JSON element is pushed
through the entity mapping; a mapping failure is a Rust panic (unwrap on a
missing mandatory field), modelled by None. -/
def mapElems (mapFn : Json → Option α) : List Json → Option (List α)
  | [] => some []
  | x :: xs =>
    match mapFn x with
    | none => none
    | some a =>
      match mapElems mapFn xs with
      | none => none
      | some rest => some (a :: rest)

/-- `json_load_page` modelled from the spec: the page body must be a JSON
array; a body of the wrong shape is a broken response contract. -/
def jsonLoadPage (body : Json) : Except GRError (List Json) :=
  match body with
  | .arr xs => .ok xs
  | _ =>
    .error (.RemoteUnexpectedResponseContract
      ("Expected an array but got: " ++ body.render))

/-- The entity extraction of one page in the `paged!` macro
(src/remote/query.rs lines 182-217): either iterate a named sub-array
(whose absence is a RemoteUnexpectedResponseContract error) or the whole
body array, mapping every element. -/
def pageData (mapFn : Json → Option α) (subArray : Option String) (r : Response) :
    Outcome (List α) :=
  match subArray with
  | some key =>
    match (r.body.get key).asArray with
    | none =>
      .err (.RemoteUnexpectedResponseContract
        ("Expected an array of " ++ key ++ " but got: " ++ r.body.render))
    | some xs =>
      match mapElems mapFn xs with
      | none => .panicked unwrapMsg
      | some d => .ok d
  | none =>
    match jsonLoadPage r.body with
    | .error e => .err e
    | .ok xs =>
      match mapElems mapFn xs with
      | none => .panicked unwrapMsg
      | some d => .ok d

/-- Per-page processing of the `paged!` macro: a failed call propagates its
error, a non-OK status becomes `query_error`, otherwise the page is mapped
and — when the flush flag is set — written to the output sink while an
empty vector is returned for that page.  The second component is the data
flushed to the sink. -/
def processPage (mapFn : Json → Option α) (url : String)
    (listArgs : Option ListBodyArgs) (subArray : Option String) :
    Except GRError Response → Outcome (List α) × List (List α)
  | .error e => (.err e, [])
  | .ok r =>
    if r.isOk .GET then
      match pageData mapFn subArray r with
      | .ok d => if flushOf listArgs then (.ok [], [d]) else (.ok d, [])
      | .err e => (.err e, [])
      | .panicked m => (.panicked m, [])
    else
      (.err (queryError url r), [])

/-- `collect::<Result<Vec<Vec<_>>>>`: pages are processed in order and the
first error short-circuits; flushed output accumulates in page order. -/
def collectPages (f : Except GRError Response → Outcome (List α) × List (List α)) :
    List (Except GRError Response) → Outcome (List (List α)) × List (List α)
  | [] => (.ok [], [])
  | p :: ps =>
    match f p with
    | (.err e, out) => (.err e, out)
    | (.panicked m, out) => (.panicked m, out)
    | (.ok d, out) =>
      match collectPages f ps with
      | (.ok ds, outs) => (.ok (d :: ds), out ++ outs)
      | (.err e, outs) => (.err e, out ++ outs)
      | (.panicked m, outs) => (.panicked m, out ++ outs)

/-- Modelled from the spec: whether an entity lies inside the optional
caller-supplied time window. -/
def withinWindow (dateOf : α → Nat) (args : Option ListBodyArgs) (a : α) : Bool :=
  match args with
  | none => true
  | some la =>
    (match la.createdAfter with
     | none => true
     | some t => decide (t ≤ dateOf a)) &&
    (match la.createdBefore with
     | none => true
     | some t => decide (dateOf a ≤ t))

/-- Stable descending insertion by timestamp: an entity is placed after
every already-sorted entity with a strictly greater timestamp and before
the first one with an equal or smaller timestamp. -/
def insertDesc (dateOf : α → Nat) (a : α) : List α → List α
  | [] => [a]
  | b :: bs =>
    if dateOf a < dateOf b then b :: insertDesc dateOf a bs else a :: b :: bs

/-- Stable sort by timestamp, most-recent-first, ties broken by original
arrival order. -/
def sortDesc (dateOf : α → Nat) : List α → List α
  | [] => []
  | x :: xs => insertDesc dateOf x (sortDesc dateOf xs)

/-- Modelled from the spec: `sort_filter_by_date` (src/time.rs is not part
of the reviewed sources) — entities outside the optional caller-supplied
time window are dropped, the remainder sorted by canonical timestamp,
most-recent-first, ties broken by arrival order. -/
def sortFilterByDate (dateOf : α → Nat) (xs : List α) (args : Option ListBodyArgs) :
    List α :=
  sortDesc dateOf (xs.filter (withinWindow dateOf args))

/-- The body of every function generated by the `paged!` macro
(src/remote/query.rs lines 149-239): build the list request (panicking if
a starting page lacks a resolvable page count), drive the Paginator, map
every page, short-circuit on the first error, flatten in page order and
apply the date-based sort/filter pass.  The second component is the data
flushed page-by-page to the output sink. -/
def paged (mapFn : Json → Option α) (dateOf : α → Nat) (script : Runner)
    (url : String) (listArgs : Option ListBodyArgs) (subArray : Option String) :
    Outcome (List α) × List (List α) :=
  match buildMaxPages listArgs with
  | .err e => (.err e, [])
  | .panicked m => (.panicked m, [])
  | .ok mp =>
    match collectPages (processPage mapFn url listArgs subArray) (paginate script mp) with
    | (.ok ds, out) => (.ok (sortFilterByDate dateOf ds.flatten listArgs), out)
    | (.err e, out) => (.err e, out)
    | (.panicked m, out) => (.panicked m, out)

/-- The Project domain entity (constructed by the field-mapping layer with
`with_html_url` / `with_created_at`). -/
structure Project where
  id : Int
  defaultBranch : String
  htmlUrl : String
  createdAt : String
deriving Repr, DecidableEq

/-- The backend-specific intermediate record GitlabProjectFields
(src/gitlab/project.rs lines 100-105). -/
structure GitlabProjectFields where
  id : Int
  defaultBranch : String
  webUrl : String
  createdAt : String
deriving Repr, DecidableEq

/-- `From<&serde_json::Value> for GitlabProjectFields`
(src/gitlab/project.rs lines 107-116): every field access ends in
`.unwrap()`, so a missing or wrongly-shaped mandatory field panics —
modelled by None. -/
def GitlabProjectFields.fromJson (data : Json) : Option GitlabProjectFields :=
  match (data.get "id").asI64 with
  | none => none
  | some id =>
    match (data.get "default_branch").asStr with
    | none => none
    | some db =>
      match (data.get "web_url").asStr with
      | none => none
      | some wu =>
        match (data.get "created_at").asStr with
        | none => none
        | some ca => some ⟨id, db, wu, ca⟩

/-- `From<GitlabProjectFields> for Project` (src/gitlab/project.rs lines
118-124). -/
def GitlabProjectFields.toProject (f : GitlabProjectFields) : Project :=
  ⟨f.id, f.defaultBranch, f.webUrl, f.createdAt⟩

/-- The composed mapping `<GitlabProjectFields>::from(data).into()` used by
`paged!(gitlab_list_projects, GitlabProjectFields, Project)`. -/
def projectFromJson (data : Json) : Option Project :=
  (GitlabProjectFields.fromJson data).map GitlabProjectFields.toProject

/-- `gitlab_list_projects` as generated by the `paged!` macro,
parameterized by the timestamp extraction used by the date pass. -/
def gitlab_list_projects (dateOf : Project → Nat) (script : Runner) (url : String)
    (listArgs : Option ListBodyArgs) : Outcome (List Project) × List (List Project) :=
  paged projectFromJson dateOf script url listArgs none

/-- `num_pages` (src/remote/query.rs lines 42-67): issue one HEAD call; no
page headers at all means exactly one page, a last relation yields its
page number, page headers without a last relation yield None. -/
def num_pages (script : Runner) : Outcome (Option Nat) :=
  match script with
  | [] => .panicked "no scripted response"
  | .transportError m :: _ => .err (.HttpTransportError m)
  | .resp r :: _ =>
    match r.pageHeaders with
    | some ph =>
      match ph.last with
      | some lastPage => .ok (some lastPage.number)
      | none => .ok none
    | none => .ok (some 1)

/-- MetadataName (src/cmds/common.rs lines 65-78). -/
inductive MetadataName where
  | pages
  | resources
deriving Repr, DecidableEq

/-- Display impl for MetadataName. -/
def MetadataName.render : MetadataName → String
  | .pages => "pages"
  | .resources => "resources"

/-- `process_num_metadata` (src/cmds/common.rs lines 80-99): a known count
is printed followed by a newline, an unknown count prints the
"not available" message, an error propagates.  The value is the text
written to the writer. -/
def process_num_metadata (numMetadata : Outcome (Option Nat))
    (resourceName : MetadataName) : Outcome String :=
  match numMetadata with
  | .ok (some count) => .ok (toString count ++ "\n")
  | .ok none => .ok ("Number of " ++ resourceName.render ++ " not available.\n")
  | .err e => .err e
  | .panicked m => .panicked m

/-- `num_comment_merge_request_pages` (src/cmds/common.rs lines 117-121,
generated by `query_pages!`): the remote's num_pages result — abstracted
here as the already-computed outcome for the given remote and body
arguments — labelled as pages. -/
def num_comment_merge_request_pages (numPagesResult : Outcome (Option Nat)) :
    Outcome String :=
  process_num_metadata numPagesResult .pages

/-- `num_comment_merge_request_resources` (src/cmds/common.rs lines
136-140): generated by `query_pages!` as well, so it also calls the
remote's num_pages and labels the result as pages. -/
def num_comment_merge_request_resources (numPagesResult : Outcome (Option Nat)) :
    Outcome String :=
  process_num_metadata numPagesResult .pages

/-- The caller side of every `list_resource!` function
(src/cmds/common.rs lines 142-182, `list_remote_objs!`): an error
propagates; with the flush flag set the caller returns immediately
writing nothing; an empty sequence prints "No resources found."; otherwise
the aggregate is rendered.  The value is the text written to the writer. -/
def list_resource (render : List α → String) (listOutcome : Outcome (List α))
    (flush : Bool) : Outcome String :=
  match listOutcome with
  | .err e => .err e
  | .panicked m => .panicked m
  | .ok objs =>
    if flush then .ok ""
    else if objs.isEmpty then .ok "No resources found.\n"
    else .ok (render objs)

/-- The MergeRequestResponse domain entity. -/
structure MergeRequestResponse where
  id : Int
  webUrl : String
  author : String
  updatedAt : String
  sourceBranch : String
deriving Repr, DecidableEq

/-- Rust `str::split_whitespace`: split on whitespace, dropping empty
chunks. -/
def splitWsAux : List Char → List Char → List String
  | [], acc => if acc.isEmpty then [] else [String.mk acc.reverse]
  | c :: cs, acc =>
    if c.isWhitespace then
      if acc.isEmpty then splitWsAux cs []
      else String.mk acc.reverse :: splitWsAux cs []
    else splitWsAux cs (c :: acc)

/-- Rust `str::split_whitespace` over a string. -/
def splitWhitespace (s : String) : List String :=
  splitWsAux s.data []

/-- Rust `str::trim_matches(c)`: strip every leading and trailing
occurrence of the character. -/
def trimMatches (c : Char) (s : String) : String :=
  String.mk (((s.data.dropWhile (· == c)).reverse.dropWhile (· == c)).reverse)

/-- The numeric value of a decimal digit. -/
def digitVal (c : Char) : Option Nat :=
  if c.isDigit then some (c.toNat - 48) else none

/-- Accumulator loop for decimal parsing; None until a digit was seen. -/
def parseNatChars : List Char → Option Nat → Option Nat
  | [], acc => acc
  | c :: cs, acc =>
    match digitVal c with
    | none => none
    | some d => parseNatChars cs (some (acc.getD 0 * 10 + d))

/-- Rust `str::parse::<i64>()`: an optional sign followed by at least one
decimal digit (overflow is not modelled). -/
def parseI64 (s : String) : Option Int :=
  match s.data with
  | '-' :: rest => (parseNatChars rest none).map (fun n => -(n : Int))
  | '+' :: rest => (parseNatChars rest none).map (fun n => (n : Int))
  | cs => (parseNatChars cs none).map (fun n => (n : Int))

/-- `Gitlab::open` (src/gitlab.rs lines 55-110): POST the merge request; a
409 conflict is translated into a success whose identifier is parsed from
the last whitespace-separated word of the conflict message with the
exclamation marks trimmed, and whose URL is rebuilt from domain, project
path and that identifier; any other non-201 status is an error; a 201
response is mapped from its iid and web_url fields. -/
def mrOpen (domain path : String) (script : Runner) : Outcome MergeRequestResponse :=
  match script with
  | [] => .panicked "no scripted response"
  | .transportError m :: _ => .err (.HttpTransportError m)
  | .resp response :: _ =>
    if response.status == 409 then
      match ((response.body.get "message").idx 0).asStr with
      | none => .panicked unwrapMsg
      | some msg =>
        match (splitWhitespace msg).getLast? with
        | none => .panicked unwrapMsg
        | some lastWord =>
          let mergeRequestIid := trimMatches '!' lastWord
          match parseI64 mergeRequestIid with
          | none => .panicked "called Result::unwrap on an Err value"
          | some iid =>
            .ok ⟨iid,
              "https://" ++ domain ++ "/" ++ path ++ "/-/merge_requests/" ++
                mergeRequestIid,
              "", "", ""⟩
    else if response.status != 201 then
      .err (.GenericError ("Failed to open merge request: " ++ response.body.render))
    else
      match (response.body.get "iid").asI64 with
      | none => .panicked unwrapMsg
      | some iid =>
        match (response.body.get "web_url").asStr with
        | none => .panicked unwrapMsg
        | some webUrl => .ok ⟨iid, webUrl, "", "", ""⟩

/-- `encode_path` (src/gitlab.rs): percent-encode the slashes of an
owner/repo path. -/
def encode_path (path : String) : String :=
  String.join (path.data.map (fun c => if c == '/' then "%2F" else String.mk [c]))

/-- The per-instance state of the Gitlab backend built by `Gitlab::new`
(src/gitlab.rs lines 27-43). -/
structure GitlabClient where
  domain : String
  path : String
deriving Repr, DecidableEq

/-- `base_project_url` as computed by `Gitlab::new`. -/
def GitlabClient.baseProjectUrl (gl : GitlabClient) : String :=
  "https://" ++ gl.domain ++ "/api/v4/projects"

/-- `rest_api_basepath` as computed by `Gitlab::new`. -/
def GitlabClient.restApiBasepath (gl : GitlabClient) : String :=
  gl.baseProjectUrl ++ "/" ++ encode_path gl.path

/-- `Gitlab::get_project_data` (src/gitlab/project.rs lines 15-39): with
both an id and an owner/repo path the call fails with
GRError::ApplicationError before any request reaches the Runner; otherwise
one GET is issued through `query::gitlab_project_data` (a `send!`-generated
function: status check, then the GitlabProjectFields mapping).  The second
component counts the calls handed to the Runner. -/
def get_project_data (gl : GitlabClient) (script : Runner) (id : Option Int)
    (path : Option String) : Outcome Project × Nat :=
  match id, path with
  | some _, some _ =>
    (.err (.ApplicationError
      "Invalid arguments, can only get project data by id or by owner/repo path"), 0)
  | _, _ =>
    match script with
    | [] => (.panicked "no scripted response", 1)
    | .transportError m :: _ => (.err (.HttpTransportError m), 1)
    | .resp r :: _ =>
      if r.isOk .GET then
        match projectFromJson r.body with
        | some p => (.ok p, 1)
        | none => (.panicked unwrapMsg, 1)
      else
        (.err (queryError (match id with
          | some i => gl.baseProjectUrl ++ "/" ++ toString i
          | none => (match path with
            | some p => gl.baseProjectUrl ++ "/" ++ encode_path p
            | none => gl.restApiBasepath)) r), 1)

/-- BrowseOptions (src/cli/browse.rs usage). -/
inductive BrowseOptions where
  | Repo
  | MergeRequests
  | MergeRequestId (id : Int)
  | Pipelines
deriving Repr, DecidableEq

/-- `Gitlab::get_url` as implemented in src/gitlab.rs lines 288-297. -/
def get_url_gitlab (domain path : String) (option : BrowseOptions) : String :=
  let baseUrl := "https://" ++ domain ++ "/" ++ path
  match option with
  | .Repo => baseUrl
  | .MergeRequests => baseUrl ++ "/merge_requests"
  | .MergeRequestId id => baseUrl ++ "/merge_requests/" ++ toString id
  | .Pipelines => baseUrl ++ "/pipelines"

/-- `Gitlab::get_url` as implemented in src/gitlab/project.rs lines
54-62. -/
def get_url_gitlab_project (domain path : String) (option : BrowseOptions) : String :=
  let baseUrl := "https://" ++ domain ++ "/" ++ path
  match option with
  | .Repo => baseUrl
  | .MergeRequests => baseUrl ++ "/merge_requests"
  | .MergeRequestId id => baseUrl ++ "/-/merge_requests/" ++ toString id
  | .Pipelines => baseUrl ++ "/pipelines"

/-- Classifier: is an outcome the precondition-not-met error kind? -/
def Outcome.isPrecondFailure : Outcome α → Bool
  | .err (.PreconditionNotMet _) => true
  | _ => false

/-- Classifier: is an outcome the unexpected-response-contract error
kind? -/
def Outcome.isContractFailure : Outcome α → Bool
  | .err (.RemoteUnexpectedResponseContract _) => true
  | _ => false

-- Helper lemmas about page collection.

theorem flatten_map_const_nil (ds : List β) :
    (ds.map (fun _ => ([] : List α))).flatten = [] := by
  induction ds with
  | nil => rfl
  | cons d ds ih => simp [ih]

theorem collectPages_ok_of_pages (mapFn : Json → Option α) (url : String)
    (listArgs : Option ListBodyArgs) (subArray : Option String)
    (hflush : flushOf listArgs = false) :
    ∀ (pages : List Response) (ds : List (List α)),
      pages.map (pageData mapFn subArray) = ds.map Outcome.ok →
      (∀ r ∈ pages, r.isOk .GET = true) →
      collectPages (processPage mapFn url listArgs subArray) (pages.map Except.ok)
        = (.ok ds, []) := by
  intro pages
  induction pages with
  | nil =>
    intro ds h _
    cases ds with
    | nil => rfl
    | cons d ds => simp at h
  | cons r rs ih =>
    intro ds h hok
    cases ds with
    | nil => simp at h
    | cons d ds =>
      simp only [List.map_cons, List.cons.injEq] at h
      obtain ⟨h1, h2⟩ := h
      have hr : r.isOk .GET = true := hok r (List.mem_cons_self r rs)
      have hrs : ∀ x ∈ rs, x.isOk .GET = true :=
        fun x hx => hok x (List.mem_cons_of_mem _ hx)
      simp only [List.map_cons, collectPages, processPage, hr, if_true, h1,
        hflush, Bool.false_eq_true, if_false, ih ds h2 hrs, List.nil_append]

theorem collectPages_flush_of_pages (mapFn : Json → Option α) (url : String)
    (listArgs : Option ListBodyArgs) (subArray : Option String)
    (hflush : flushOf listArgs = true) :
    ∀ (pages : List Response) (ds : List (List α)),
      pages.map (pageData mapFn subArray) = ds.map Outcome.ok →
      (∀ r ∈ pages, r.isOk .GET = true) →
      collectPages (processPage mapFn url listArgs subArray) (pages.map Except.ok)
        = (.ok (ds.map (fun _ => [])), ds) := by
  intro pages
  induction pages with
  | nil =>
    intro ds h _
    cases ds with
    | nil => rfl
    | cons d ds => simp at h
  | cons r rs ih =>
    intro ds h hok
    cases ds with
    | nil => simp at h
    | cons d ds =>
      simp only [List.map_cons, List.cons.injEq] at h
      obtain ⟨h1, h2⟩ := h
      have hr : r.isOk .GET = true := hok r (List.mem_cons_self r rs)
      have hrs : ∀ x ∈ rs, x.isOk .GET = true :=
        fun x hx => hok x (List.mem_cons_of_mem _ hx)
      simp only [List.map_cons, collectPages, processPage, hr, if_true, h1,
        hflush, ih ds h2 hrs, List.singleton_append]

theorem collectPages_err_of_prefix
    (f : Except GRError Response → Outcome (List α) × List (List α)) :
    ∀ (goods : List (Except GRError Response)) (bad : Except GRError Response)
      (rest : List (Except GRError Response)) (e : GRError) (o : List (List α)),
      (∀ p ∈ goods, ∃ d out, f p = (.ok d, out)) →
      f bad = (.err e, o) →
      (collectPages f (goods ++ bad :: rest)).1 = .err e := by
  intro goods
  induction goods with
  | nil =>
    intro bad rest e o _ hbad
    simp [collectPages, hbad]
  | cons g gs ih =>
    intro bad rest e o hg hbad
    obtain ⟨d, out, hfg⟩ := hg g (List.mem_cons_self _ _)
    have htail := ih bad rest e o (fun p hp => hg p (List.mem_cons_of_mem _ hp)) hbad
    simp only [List.cons_append, collectPages, hfg]
    cases hc : collectPages f (gs ++ bad :: rest) with
    | mk fst snd =>
      rw [hc] at htail
      simp only at htail
      cases fst with
      | ok ds => simp at htail
      | err e2 => simp_all
      | panicked m => simp at htail

-- Concrete sample data used by the witnesses.

/-- A minimal GitLab project JSON payload. -/
def sampleProjectJson (id : Int) : Json :=
  .obj [("id", .num id), ("default_branch", .str "main"),
        ("web_url", .str "https://gitlab.com/p"), ("created_at", .str "2024")]

/-- The Project entity the sample payload maps to. -/
def sampleProject (id : Int) : Project :=
  ⟨id, "main", "https://gitlab.com/p", "2024"⟩

/-- The project id doubles as the canonical timestamp in the samples. -/
def sampleDate : Project → Nat := fun p => p.id.toNat

/-- First sample page: one project, link headers advertising a next page. -/
def pageOne : Response :=
  ⟨200, .arr [sampleProjectJson 1], some ⟨some ⟨2⟩, some ⟨2⟩⟩⟩

/-- Second sample page: one project, no link headers (terminal page). -/
def pageTwo : Response :=
  ⟨200, .arr [sampleProjectJson 5], none⟩

/-- A failing sample page: a 500 status. -/
def badPage : Response := ⟨500, .null, none⟩

/-- A successful sample page holding an empty JSON array. -/
def emptyPage : Response := ⟨200, .arr [], none⟩

/-- List arguments with the flush flag set and nothing else. -/
def flushArgs : ListBodyArgs := ⟨none, none, none, true, none, none⟩

-- Claim theorems.

/-- C1: for every paged list operation, when every page response is
successful the returned sequence is the concatenation of the per-page
entity mappings in request/page order, with the date-based sort/filter
pass applied to the concatenation: entities outside the caller-supplied
time window are dropped and the remainder are sorted by timestamp
most-recent-first. -/
theorem c1_list_concat_then_sort (mapFn : Json → Option α) (dateOf : α → Nat)
    (script : Runner) (url : String) (listArgs : Option ListBodyArgs)
    (subArray : Option String) (mp : Option Nat) (pages : List Response)
    (ds : List (List α))
    (hmp : buildMaxPages listArgs = .ok mp)
    (hpag : paginate script mp = pages.map Except.ok)
    (hds : pages.map (pageData mapFn subArray) = ds.map Outcome.ok)
    (hok : ∀ r ∈ pages, r.isOk .GET = true)
    (hflush : flushOf listArgs = false) :
    paged mapFn dateOf script url listArgs subArray
      = (.ok (sortFilterByDate dateOf ds.flatten listArgs), []) := by
  simp only [paged, hmp, hpag,
    collectPages_ok_of_pages mapFn url listArgs subArray hflush pages ds hds hok]

/-- C1 witness: two successful pages of one project each concatenate in
page order and come back sorted most-recent-first. -/
theorem c1_witness :
    gitlab_list_projects sampleDate [.resp pageOne, .resp pageTwo]
        "https://gitlab.com/api/v4/users/1/projects" none
      = (.ok [sampleProject 5, sampleProject 1], []) :=
  c1_list_concat_then_sort projectFromJson sampleDate
    [.resp pageOne, .resp pageTwo] "https://gitlab.com/api/v4/users/1/projects"
    none none none [pageOne, pageTwo] [[sampleProject 1], [sampleProject 5]]
    rfl rfl rfl (by decide) rfl

/-- C2: if any page yields an error — a failed underlying call or a non-OK
status — the whole list call returns that error and no partial results;
entities mapped from pages already fetched are discarded, never returned
alongside or instead of the error. -/
theorem c2_list_error_aborts (mapFn : Json → Option α) (dateOf : α → Nat)
    (script : Runner) (url : String) (listArgs : Option ListBodyArgs)
    (subArray : Option String) (mp : Option Nat)
    (goods : List (Except GRError Response)) (bad : Except GRError Response)
    (rest : List (Except GRError Response)) (e : GRError) (o : List (List α))
    (hmp : buildMaxPages listArgs = .ok mp)
    (hpag : paginate script mp = goods ++ bad :: rest)
    (hgoods : ∀ p ∈ goods, ∃ d out,
      processPage mapFn url listArgs subArray p = (.ok d, out))
    (hbad : processPage mapFn url listArgs subArray bad = (.err e, o)) :
    (paged mapFn dateOf script url listArgs subArray).1 = .err e ∧
    ∀ l : List α, (paged mapFn dateOf script url listArgs subArray).1 ≠ .ok l := by
  have h := collectPages_err_of_prefix (processPage mapFn url listArgs subArray)
    goods bad rest e o hgoods hbad
  have hmain : (paged mapFn dateOf script url listArgs subArray).1 = .err e := by
    simp only [paged, hmp, hpag]
    cases hc : collectPages (processPage mapFn url listArgs subArray)
        (goods ++ bad :: rest) with
    | mk fst snd =>
      rw [hc] at h
      simp only at h
      subst h
      simp
  exact ⟨hmain, fun l hl => by rw [hmain] at hl; exact Outcome.noConfusion hl⟩

/-- C2 witness: a successful first page followed by a 500 page makes the
whole call return the remote-server error, with no entities. -/
theorem c2_witness :
    (gitlab_list_projects sampleDate [.resp pageOne, .resp badPage]
        "https://gitlab.com/api/v4/users/1/projects" none).1
      = .err (queryError "https://gitlab.com/api/v4/users/1/projects" badPage) :=
  (c2_list_error_aborts projectFromJson sampleDate
    [.resp pageOne, .resp badPage] "https://gitlab.com/api/v4/users/1/projects"
    none none none [.ok pageOne] (.ok badPage) []
    (queryError "https://gitlab.com/api/v4/users/1/projects" badPage) []
    rfl rfl
    (by
      intro p hp
      rw [List.mem_singleton] at hp
      subst hp
      exact ⟨[sampleProject 1], [], rfl⟩)
    rfl).1

/-- C3: num_pages returns Some 1 when the response carries no page headers
at all, Some n when a last relation with page number n is present, and
None when page headers exist but no last relation does; the caller renders
None as "not available" and never coerces it to zero. -/
theorem c3_num_pages_semantics (r : Response) (rest : Runner) :
    (r.pageHeaders = none → num_pages (.resp r :: rest) = .ok (some 1)) ∧
    (∀ (ph : PageHeader) (n : Nat), r.pageHeaders = some ph →
      ph.last = some ⟨n⟩ → num_pages (.resp r :: rest) = .ok (some n)) ∧
    (∀ ph : PageHeader, r.pageHeaders = some ph → ph.last = none →
      num_pages (.resp r :: rest) = .ok none) ∧
    process_num_metadata (.ok none) .pages
      = .ok "Number of pages not available.\n" ∧
    (∀ name : MetadataName, process_num_metadata (.ok none) name ≠ .ok "0\n") := by
  refine ⟨?_, ?_, ?_, rfl, ?_⟩
  · intro h
    simp [num_pages, h]
  · intro ph n h1 h2
    simp [num_pages, h1, h2]
  · intro ph h1 h2
    simp [num_pages, h1, h2]
  · intro name
    cases name <;> decide

/-- C3 witness: a response whose last relation names page 3 yields Some 3. -/
theorem c3_witness :
    num_pages [.resp ⟨200, .null, some ⟨some ⟨2⟩, some ⟨3⟩⟩⟩] = .ok (some 3) :=
  (c3_num_pages_semantics ⟨200, .null, some ⟨some ⟨2⟩, some ⟨3⟩⟩⟩ []).2.1
    ⟨some ⟨2⟩, some ⟨3⟩⟩ 3 rfl rfl

/-- The GitLab conflict body naming merge request !60. -/
def conflictBody : Json :=
  .obj [("message",
    .arr [.str "Another open merge request already exists for this source branch: !60"])]

/-- C4: a 409-status response to the merge-request open operation whose
conflict message names !60 yields a success result (not an error) with
identifier 60 and the merge-request URL rebuilt from domain, project path
and that identifier. -/
theorem c4_open_conflict_success :
    mrOpen "gitlab.com" "jordilin/gitlapi" [.resp ⟨409, conflictBody, none⟩]
      = .ok ⟨60, "https://gitlab.com/jordilin/gitlapi/-/merge_requests/60",
          "", "", ""⟩ := by
  rfl

/-- C5 counterexample: a page whose array element lacks the mandatory id
field makes the mapping panic (Rust unwrap) instead of returning an
unexpected-response-contract error, refuting the claim that every missing
mandatory field is reported as that error. -/
theorem c5_counterexample :
    (gitlab_list_projects sampleDate [.resp ⟨200, .arr [.obj []], none⟩]
        "https://gitlab.com/api/v4/users/1/projects" none).1
      = .panicked unwrapMsg ∧
    (gitlab_list_projects sampleDate [.resp ⟨200, .arr [.obj []], none⟩]
        "https://gitlab.com/api/v4/users/1/projects" none).1.isContractFailure
      = false :=
  ⟨rfl, rfl⟩

/-- C5 amended: an expected named sub-array that is absent is reported as
an unexpected-response-contract error returned to the caller; a missing
mandatory field in the entity field mapping instead panics (Rust unwrap
aborts), it is not returned as an error of any kind. -/
theorem c5_mapping_failure_modes :
    (∀ (r : Response) (key : String), (r.body.get key).asArray = none →
      pageData projectFromJson (some key) r
        = .err (.RemoteUnexpectedResponseContract
            ("Expected an array of " ++ key ++ " but got: " ++ r.body.render))) ∧
    (∀ (j : Json) (restElems : List Json), GitlabProjectFields.fromJson j = none →
      ∀ r : Response, r.body = .arr (j :: restElems) →
        pageData projectFromJson none r = .panicked unwrapMsg) := by
  constructor
  · intro r key h
    simp [pageData, h]
  · intro j restElems hj r hb
    simp [pageData, jsonLoadPage, hb, mapElems, projectFromJson, hj]

/-- C5 witness: the sub-array case errs with the contract error while the
missing-field case panics. -/
theorem c5_witness :
    pageData projectFromJson (some "projects") ⟨200, .obj [], none⟩
      = .err (.RemoteUnexpectedResponseContract
          ("Expected an array of " ++ "projects" ++ " but got: " ++
            (Json.obj []).render)) ∧
    pageData projectFromJson none ⟨200, .arr [.obj []], none⟩
      = .panicked unwrapMsg :=
  ⟨c5_mapping_failure_modes.1 ⟨200, .obj [], none⟩ "projects" rfl,
   c5_mapping_failure_modes.2 (.obj []) [] rfl ⟨200, .arr [.obj []], none⟩ rfl⟩

/-- C6 counterexample: supplying both an id and an owner/repo path makes
get_project_data fail with GRError::ApplicationError — not with the
PreconditionNotMet variant the claim names — and zero requests reach the
Runner. -/
theorem c6_counterexample :
    (get_project_data ⟨"gitlab.com", "jordilin/gitlapi"⟩ [] (some 54345)
        (some "jordilin/gitlapi")).1
      = .err (.ApplicationError
          "Invalid arguments, can only get project data by id or by owner/repo path") ∧
    (get_project_data ⟨"gitlab.com", "jordilin/gitlapi"⟩ [] (some 54345)
        (some "jordilin/gitlapi")).1.isPrecondFailure = false ∧
    (get_project_data ⟨"gitlab.com", "jordilin/gitlapi"⟩ [] (some 54345)
        (some "jordilin/gitlapi")).2 = 0 :=
  ⟨rfl, rfl, rfl⟩

/-- C6 amended: when the caller supplies both a numeric id and an
owner/repo path, get_project_data fails with GRError::ApplicationError
("Invalid arguments, ...") and no request is handed to the Runner before
failing. -/
theorem c6_both_args_application_error (gl : GitlabClient) (script : Runner)
    (i : Int) (p : String) :
    get_project_data gl script (some i) (some p)
      = (.err (.ApplicationError
          "Invalid arguments, can only get project data by id or by owner/repo path"),
         0) :=
  rfl

/-- C7: with the flush flag set, each page's mapped entities are written
to the output sink as that page is processed and the final return value is
the empty sequence; the caller, seeing flush set, returns immediately
without printing the aggregate and without emitting the "No resources
found." message. -/
theorem c7_flush_streams_pages (mapFn : Json → Option α) (dateOf : α → Nat)
    (script : Runner) (url : String) (listArgs : Option ListBodyArgs)
    (subArray : Option String) (mp : Option Nat) (pages : List Response)
    (ds : List (List α)) (render : List α → String)
    (hmp : buildMaxPages listArgs = .ok mp)
    (hpag : paginate script mp = pages.map Except.ok)
    (hds : pages.map (pageData mapFn subArray) = ds.map Outcome.ok)
    (hok : ∀ r ∈ pages, r.isOk .GET = true)
    (hflush : flushOf listArgs = true) :
    paged mapFn dateOf script url listArgs subArray = (.ok [], ds) ∧
    list_resource render (Outcome.ok ([] : List α)) true = .ok "" ∧
    list_resource render (Outcome.ok ([] : List α)) true
      ≠ .ok "No resources found.\n" := by
  refine ⟨?_, rfl, by simp [list_resource]⟩
  simp only [paged, hmp, hpag,
    collectPages_flush_of_pages mapFn url listArgs subArray hflush pages ds hds hok,
    flatten_map_const_nil]
  rfl

/-- C7 witness: with flush set both sample pages are streamed to the sink
in page order and the returned sequence is empty. -/
theorem c7_witness :
    paged projectFromJson sampleDate [.resp pageOne, .resp pageTwo]
        "https://gitlab.com/api/v4/users/1/projects" (some flushArgs) none
      = (.ok [], [[sampleProject 1], [sampleProject 5]]) :=
  (c7_flush_streams_pages projectFromJson sampleDate
    [.resp pageOne, .resp pageTwo] "https://gitlab.com/api/v4/users/1/projects"
    (some flushArgs) none none [pageOne, pageTwo]
    [[sampleProject 1], [sampleProject 5]] (fun _ => "")
    rfl rfl rfl (by decide) rfl).1

/-- C8: a list call whose successful response carries an empty JSON array
returns an empty sequence as a success (distinguishable from an error),
and the calling layer writes exactly "No resources found.\n" instead of
printing entities. -/
theorem c8_empty_array_no_resources (mapFn : Json → Option α) (dateOf : α → Nat)
    (r : Response) (rest : Runner) (url : String) (listArgs : Option ListBodyArgs)
    (render : List α → String)
    (hmp : buildMaxPages listArgs = .ok none)
    (hflush : flushOf listArgs = false)
    (hstatus : r.status = 200)
    (hbody : r.body = .arr [])
    (hheaders : r.pageHeaders = none) :
    paged mapFn dateOf (.resp r :: rest) url listArgs none = (.ok [], []) ∧
    list_resource render (Outcome.ok ([] : List α)) false
      = .ok "No resources found.\n" ∧
    (∀ e : GRError, Outcome.ok ([] : List α) ≠ .err e) := by
  refine ⟨?_, rfl, fun e h => Outcome.noConfusion h⟩
  have hpag : paginate (.resp r :: rest) none = List.map Except.ok [r] := by
    simp [paginate, paginateLink, hheaders]
  have hpd : pageData mapFn none r = .ok ([] : List α) := by
    simp [pageData, jsonLoadPage, hbody, mapElems]
  have hok : r.isOk .GET = true := by
    simp [Response.isOk, hstatus]
  have hcol := collectPages_ok_of_pages mapFn url listArgs none hflush [r]
    [([] : List α)]
    (by simp [hpd])
    (by
      intro x hx
      rw [List.mem_singleton] at hx
      subst hx
      exact hok)
  simp only [paged, hmp, hpag, hcol]
  rfl

/-- C8 witness: one empty 200 page yields the successful empty sequence
and the caller prints the no-resources message. -/
theorem c8_witness :
    paged projectFromJson sampleDate [.resp emptyPage]
        "https://gitlab.com/api/v4/users/1/projects" none none = (.ok [], []) ∧
    list_resource (fun _ : List Project => "") (Outcome.ok ([] : List Project)) false
      = .ok "No resources found.\n" :=
  ⟨(c8_empty_array_no_resources projectFromJson sampleDate emptyPage []
      "https://gitlab.com/api/v4/users/1/projects" none (fun _ => "")
      rfl rfl rfl rfl rfl).1,
   (c8_empty_array_no_resources projectFromJson sampleDate emptyPage []
      "https://gitlab.com/api/v4/users/1/projects" none (fun _ => "")
      rfl rfl rfl rfl rfl).2.1⟩

/-- C9: for every remote and body arguments — abstracted as the num_pages
outcome they determine — the merge-request comment num_resources operation
produces exactly the same result and output as the num_pages operation,
reporting the page count labelled as pages. -/
theorem c9_resources_equals_pages :
    ∀ numPagesResult : Outcome (Option Nat),
      num_comment_merge_request_resources numPagesResult
        = num_comment_merge_request_pages numPagesResult ∧
      num_comment_merge_request_resources (.ok none)
        = .ok "Number of pages not available.\n" :=
  fun _ => ⟨rfl, rfl⟩

/-- C10 counterexample: at MergeRequestId 60 the two get_url
implementations return different URL strings, refuting the claim's
universal "return the same URL string". -/
theorem c10_counterexample :
    get_url_gitlab "gitlab.com" "jordilin/gitlapi" (.MergeRequestId 60)
      ≠ get_url_gitlab_project "gitlab.com" "jordilin/gitlapi" (.MergeRequestId 60) := by
  decide

/-- C10 amended: the two implementations agree for Repo, MergeRequests and
Pipelines; for MergeRequestId(id) the src/gitlab.rs one returns
base/merge_requests/id while the src/gitlab/project.rs one inserts an
extra dash segment between the base URL and merge_requests/id. -/
theorem c10_get_url_enumeration (domain path : String) :
    get_url_gitlab domain path .Repo = get_url_gitlab_project domain path .Repo ∧
    get_url_gitlab domain path .MergeRequests
      = get_url_gitlab_project domain path .MergeRequests ∧
    get_url_gitlab domain path .Pipelines
      = get_url_gitlab_project domain path .Pipelines ∧
    (∀ id : Int,
      get_url_gitlab domain path (.MergeRequestId id)
        = "https://" ++ domain ++ "/" ++ path ++ "/merge_requests/" ++ toString id ∧
      get_url_gitlab_project domain path (.MergeRequestId id)
        = "https://" ++ domain ++ "/" ++ path ++ "/-/merge_requests/" ++ toString id) :=
  ⟨rfl, rfl, rfl, fun _ => ⟨rfl, rfl⟩⟩

end Gitar
